import Mathlib

/-!
Shallow embedding of the decision/monitoring core of the Rinexor
debt-collection backend (Python, `backend/app`), and proofs about it.

Conventions of the embedding:
* Python floats are modelled as exact rationals (`ℚ`); Python ints as `ℤ`
  (counts as `ℕ` where the source counts rows).
* `datetime` values are modelled as rationals measured in days, so
  `timedelta(days = k)` is the rational `k` and `julianday` differences are
  plain subtraction.
* Python's `round(x, n)` (round-half-to-even) is modelled by `pyRound`.
* A `dict.get(key, default)` read of an optional field is `Option.getD`.
* Exceptions are modelled with `Except`/`Option`: a raising computation is a
  value describing the raise, never a partial Lean function.
-/

/-- Python `round` to the nearest integer, ties to even (banker's rounding),
on exact rationals. -/
def roundHalfEven (q : ℚ) : ℤ :=
  let f := Int.floor q
  let r := q - (f : ℚ)
  if r < 1/2 then f
  else if 1/2 < r then f + 1
  else if f % 2 = 0 then f else f + 1

/-- Python `round(q, n)` for rationals: scale by `10^n`, round half-even,
scale back. -/
def pyRound (q : ℚ) (n : ℕ) : ℚ :=
  (roundHalfEven (q * (10 : ℚ) ^ n) : ℚ) / (10 : ℚ) ^ n

/-- Case statuses, from `app/models/case.py` (`CaseStatus`). -/
inductive CaseStatus where
  | new
  | allocated
  | in_progress
  | escalated
  | resolved
  | returned
  | closed
deriving DecidableEq, Repr

/-- Case priority tiers, from `app/models/case.py` (`CasePriority`). -/
inductive CasePriority where
  | high
  | medium
  | low
deriving DecidableEq, Repr

/-- The `case_data` dictionary passed to the scoring and intake functions.
Only the keys those functions read are modelled; a missing key is `none`
(`dict.get` with a default). -/
structure CaseData where
  original_amount : Option ℚ := none
  days_delinquent : Option ℤ := none
  debt_type : Option String := none
deriving DecidableEq, Repr

/-- Reading `case_data.get('original_amount', 0)`. -/
def CaseData.amount (cd : CaseData) : ℚ := cd.original_amount.getD 0

/-- Reading `case_data.get('days_delinquent', 0)`. -/
def CaseData.days (cd : CaseData) : ℤ := cd.days_delinquent.getD 0

/-- Reading `case_data.get('debt_type', 'other')`. -/
def CaseData.debtType (cd : CaseData) : String := cd.debt_type.getD "other"

/-- A persisted `Case` row (`app/models/case.py`), restricted to the columns
the verified core reads or writes.  Identity and debtor strings other than
`id` are irrelevant to every claim and omitted. -/
structure Case where
  id : String
  status : CaseStatus
  dca_id : Option String := none
  allocated_by : Option String := none
  allocation_date : Option ℚ := none
  original_amount : ℚ := 0
  days_delinquent : ℤ := 0
  first_contact_date : Option ℚ := none
  resolved_date : Option ℚ := none
  sla_contact_deadline : Option ℚ := none
  sla_resolution_deadline : Option ℚ := none
  created_at : ℚ := 0
  updated_at : Option ℚ := none
deriving DecidableEq, Repr

/-- A persisted `DCA` row (`app/models/dca.py`), restricted to the columns the
allocation code reads.  `performance_score` and `specialization` are nullable
columns, hence `Option`. -/
structure DCA where
  id : String
  code : String
  performance_score : Option ℚ := none
  max_concurrent_cases : ℤ := 50
  specialization : Option (List String) := none
  is_active : Bool := true
  is_accepting_cases : Bool := true
deriving DecidableEq, Repr

/-! ### RecoveryModel (`app/ml/recovery_model.py`) -/

/-- Result dictionary returned by `RecoveryModel.predict` and
`RecoveryModel._predict_with_rule_based`. -/
structure PredictResult where
  recovery_probability : ℚ
  recovery_score : ℚ
  confidence : String
  key_factors : List String
  risk_factors : List String
  recommended_action : String
deriving DecidableEq, Repr

/-- Embedding of `RecoveryModel._calculate_rule_based_score`: base 70, a
penalty ladder on `days_delinquent`, a penalty ladder on `original_amount`,
then `max(0, min(100, round(score, 1)))`. -/
def calculate_rule_based_score (cd : CaseData) : ℚ :=
  let score : ℚ := 70
  let days := cd.days
  let score := if days > 180 then score - 40
    else if days > 90 then score - 25
    else if days > 60 then score - 15
    else if days > 30 then score - 5
    else score
  let amount := cd.amount
  let score := if amount > 50000 then score - 30
    else if amount > 25000 then score - 20
    else if amount > 10000 then score - 10
    else score
  max 0 (min 100 (pyRound score 1))

/-- Embedding of `RecoveryModel._predict_with_rule_based`. -/
def predict_with_rule_based (cd : CaseData) : PredictResult :=
  let recovery_score := calculate_rule_based_score cd
  { recovery_probability := recovery_score / 100
    recovery_score := recovery_score
    confidence := "medium"
    key_factors := ["Amount", "Days Delinquent"]
    risk_factors := ["Using rule-based fallback"]
    recommended_action := "Standard collection process" }

/-- Embedding of `RecoveryModel.predict`.  The trained-model branch runs
sklearn inference inside a `try`; we abstract that whole `try` body as
`trained_outcome`: `some r` is a normal return of `r`, `none` is any raised
exception.  `is_trained` is the model's `self.is_trained` flag. -/
def predict (is_trained : Bool) (trained_outcome : Option PredictResult)
    (cd : CaseData) : PredictResult :=
  if !is_trained then predict_with_rule_based cd
  else
    match trained_outcome with
    | some r => r
    | none => predict_with_rule_based cd

/-! ### PriorityEngine (`app/ml/priority_engine.py`) -/

/-- The `strategic_factors` dictionary lookup with default `0.5`. -/
def strategic_factors (debt_type : String) : ℚ :=
  if debt_type = "medical" then 0.8
  else if debt_type = "credit_card" then 0.6
  else if debt_type = "mortgage" then 0.9
  else if debt_type = "auto_loan" then 0.7
  else if debt_type = "other" then 0.5
  else 0.5

/-- The local variable `priority_score` of
`PriorityEngine.calculate_priority_score`: the weighted sum of the four
sub-scores, before any rounding. -/
def priority_score_val (cd : CaseData) (recovery_prob : ℚ) : ℚ :=
  let value_score := min (cd.amount / 50000) 1
  let urgency_score := min ((cd.days : ℚ) / 90) 1
  let recovery_score := recovery_prob
  let strategic_score := strategic_factors cd.debtType
  0.3 * value_score + 0.25 * urgency_score + 0.35 * recovery_score
    + 0.1 * strategic_score

/-- Result dictionary of `PriorityEngine.calculate_priority_score`, restricted
to the fields any claim mentions (the explanation strings and the ROI
diagnostics are presentation only and omitted). -/
structure PriorityResult where
  priority_score : ℚ
  priority_level : String
  suggested_sla_contact : ℤ
  suggested_sla_resolution : ℤ
deriving DecidableEq, Repr

/-- Embedding of `PriorityEngine.calculate_priority_score`.  The returned
`priority_score` field is the weighted sum rounded to 3 decimals
(`round(priority_score, 3)`); the tier and suggested SLA are branched on the
unrounded sum, exactly as in the source. -/
def calculate_priority_score (cd : CaseData) (recovery_prob : ℚ) :
    PriorityResult :=
  let ps := priority_score_val cd recovery_prob
  if ps ≥ 0.7 then
    { priority_score := pyRound ps 3, priority_level := "high"
      suggested_sla_contact := 1, suggested_sla_resolution := 7 }
  else if ps ≥ 0.4 then
    { priority_score := pyRound ps 3, priority_level := "medium"
      suggested_sla_contact := 3, suggested_sla_resolution := 15 }
  else
    { priority_score := pyRound ps 3, priority_level := "low"
      suggested_sla_contact := 5, suggested_sla_resolution := 30 }

/-! ### WorkflowService pure rules (`app/services/workflow_service.py`) -/

/-- Embedding of `WorkflowService._calculate_initial_priority`. -/
def calculate_initial_priority (cd : CaseData) : CasePriority :=
  if cd.amount ≥ 50000 ∨ cd.days ≥ 90 then CasePriority.high
  else if cd.amount ≥ 10000 ∨ cd.days ≥ 30 then CasePriority.medium
  else CasePriority.low

/-- Embedding of `WorkflowService._calculate_sla_deadlines`: the pair
(contact deadline, resolution deadline), each `now + timedelta(days = k)`. -/
def calculate_sla_deadlines (priority : CasePriority) (now : ℚ) : ℚ × ℚ :=
  match priority with
  | CasePriority.high => (now + 1, now + 7)
  | CasePriority.medium => (now + 3, now + 15)
  | CasePriority.low => (now + 5, now + 30)

/-- Embedding of `WorkflowService._is_valid_status_transition`
(the `valid_transitions` table). -/
def is_valid_status_transition (current_status new_status : CaseStatus) :
    Bool :=
  let targets : List CaseStatus :=
    match current_status with
    | CaseStatus.new =>
        [CaseStatus.allocated, CaseStatus.in_progress, CaseStatus.closed]
    | CaseStatus.allocated =>
        [CaseStatus.in_progress, CaseStatus.returned, CaseStatus.closed]
    | CaseStatus.in_progress =>
        [CaseStatus.resolved, CaseStatus.escalated, CaseStatus.closed]
    | CaseStatus.escalated =>
        [CaseStatus.in_progress, CaseStatus.resolved, CaseStatus.closed]
    | CaseStatus.resolved => [CaseStatus.closed, CaseStatus.in_progress]
    | CaseStatus.returned => [CaseStatus.new, CaseStatus.allocated]
    | CaseStatus.closed => []
  targets.contains new_status

/-- Embedding of `WorkflowService.update_case_status` over a list-of-rows
database.  Returns the Python boolean result together with the database after
the call (`db.commit` persists the mutation of the fetched row). -/
def update_case_status (case_id : String) (new_status : CaseStatus)
    (db : List Case) (now : ℚ) : Bool × List Case :=
  match db.find? (fun c => c.id == case_id) with
  | none => (false, db)
  | some c =>
    if is_valid_status_transition c.status new_status then
      (true, db.map (fun c2 =>
        if c2.id == case_id then
          { c2 with status := new_status, updated_at := some now }
        else c2))
    else (false, db)

/-! ### AllocationService (`app/services/allocation_service.py`) -/

/-- The query counting a DCA's live cases: rows with `dca_id = dca.id` and
status in `{allocated, in_progress}`. -/
def countActiveCases (db : List Case) (dcaId : String) : ℕ :=
  (db.filter (fun c =>
    c.dca_id == some dcaId
      && (c.status == CaseStatus.allocated
        || c.status == CaseStatus.in_progress))).length

/-- Embedding of `AllocationService._calculate_capacity_score`. -/
def calculate_capacity_score (dca : DCA) (db : List Case) : ℚ :=
  let current_cases : ℤ := countActiveCases db dca.id
  let max_capacity := dca.max_concurrent_cases
  if current_cases ≥ max_capacity then 0
  else
    let utilization : ℚ := (current_cases : ℚ) / (max_capacity : ℚ)
    if utilization ≤ 0.7 then 1
    else if utilization ≤ 0.8 then 0.8
    else if utilization ≤ 0.9 then 0.5
    else 0.2

/-- Embedding of `AllocationService._calculate_specialization_score`.  A null
or empty `specialization` column is falsy in Python, giving the neutral
`0.5`. -/
def calculate_specialization_score (cd : CaseData) (dca : DCA) : ℚ :=
  let debt_type := cd.debtType
  let amount := cd.amount
  let specs := dca.specialization.getD []
  if specs.isEmpty then 0.5
  else
    let score : ℚ := if specs.contains debt_type then 1 else 0.3
    let score :=
      if amount ≥ 50000 && specs.contains "high_value" then score + 0.2
      else if amount ≤ 5000 && specs.contains "small_claims" then score + 0.2
      else score
    min 1 score

/-- The query behind `AllocationService._calculate_workload_score`: average
age in days (`julianday('now') - julianday(created_at)`) of the DCA's live
cases; an empty average is NULL, coerced to 0 by `or 0`. -/
def avgCaseAge (db : List Case) (dcaId : String) (now : ℚ) : ℚ :=
  let ages := (db.filter (fun c =>
    c.dca_id == some dcaId
      && (c.status == CaseStatus.allocated
        || c.status == CaseStatus.in_progress))).map
    (fun c => now - c.created_at)
  if ages.isEmpty then 0 else ages.sum / ages.length

/-- Embedding of `AllocationService._calculate_workload_score`. -/
def calculate_workload_score (dca : DCA) (db : List Case) (now : ℚ) : ℚ :=
  let avg_case_age := avgCaseAge db dca.id now
  if avg_case_age ≤ 7 then 1
  else if avg_case_age ≤ 14 then 0.8
  else if avg_case_age ≤ 30 then 0.6
  else 0.3

/-- Python's `dca.performance_score or 0.5`: both a NULL column and a stored
`0.0` are falsy and replaced by the `0.5` default. -/
def performanceOrDefault (dca : DCA) : ℚ :=
  match dca.performance_score with
  | none => 0.5
  | some p => if p = 0 then 0.5 else p

/-- Embedding of `AllocationService._calculate_dca_score`: zero capacity
short-circuits to 0, otherwise the 0.4/0.35/0.15/0.1 weighted blend. -/
def calculate_dca_score (cd : CaseData) (dca : DCA) (db : List Case)
    (now : ℚ) : ℚ :=
  let capacity_score := calculate_capacity_score dca db
  if capacity_score ≤ 0 then 0
  else
    capacity_score * 0.4
      + performanceOrDefault dca * 0.35
      + calculate_specialization_score cd dca * 0.15
      + calculate_workload_score dca db now * 0.1

/-- Embedding of `AllocationService.find_best_dca`.  Only DCAs with strictly
positive score are kept; Python then stable-sorts descending by score and
takes the head, which is the first-encountered maximum — modelled by a fold
that replaces the current best only on a strictly larger score. -/
def find_best_dca (cd : CaseData) (available_dcas : List DCA)
    (db : List Case) (now : ℚ) : Option DCA :=
  let scored_dcas := available_dcas.filterMap (fun dca =>
    let score := calculate_dca_score cd dca db now
    if score > 0 then some (dca, score) else none)
  match scored_dcas with
  | [] => none
  | p :: rest =>
    some (rest.foldl (fun best q => if q.2 > best.2 then q else best) p).1

/-- One failure entry of a bulk-allocation result: case id and reason. -/
structure AllocFailure where
  case_id : String
  reason : String
deriving DecidableEq, Repr

/-- Result of a bulk-allocation strategy: the `allocated` case ids, the
`failed` entries, and the database after `db.commit`. -/
structure AllocResult where
  allocated : List String
  failed : List AllocFailure
  db : List Case
deriving DecidableEq, Repr

/-- The mutation performed when a bulk strategy assigns `case` to `dca`:
set `dca_id`, status `allocated`, `allocated_by` and `allocation_date` on the
matching row. -/
def assignCase (db : List Case) (caseId : String) (dca : DCA)
    (user_id : String) (now : ℚ) : List Case :=
  db.map (fun c =>
    if c.id == caseId then
      { c with dca_id := some dca.id, status := CaseStatus.allocated,
               allocated_by := some user_id, allocation_date := some now }
    else c)

/-- The loop of `AllocationService._allocate_round_robin` over the pending
cases.  `dcas` is the fetched active/accepting list (nonempty on this path,
so the `getD` default `d0` is never used), `dca_index` the rotation cursor.
Each case is checked only against the DCA at the cursor; the cursor advances
by one (mod the DCA count) after every case, allocated or failed. -/
def round_robin_loop (dcas : List DCA) (d0 : DCA) (user_id : String)
    (now : ℚ) : List Case → List Case → ℕ → AllocResult
  | [], db, _ => { allocated := [], failed := [], db := db }
  | c :: rest, db, dca_index =>
    let current_dca := dcas.getD dca_index d0
    let current_cases : ℤ := countActiveCases db current_dca.id
    let max_capacity := current_dca.max_concurrent_cases
    if current_cases < max_capacity then
      let db2 := assignCase db c.id current_dca user_id now
      let r := round_robin_loop dcas d0 user_id now rest db2
        ((dca_index + 1) % dcas.length)
      { r with allocated := c.id :: r.allocated }
    else
      let r := round_robin_loop dcas d0 user_id now rest db
        ((dca_index + 1) % dcas.length)
      { r with failed :=
          { case_id := c.id,
            reason := "DCA " ++ current_dca.code ++ " at capacity" }
            :: r.failed }

/-- Embedding of `AllocationService._allocate_round_robin`: `all_dcas` is the
DCA table, filtered to active/accepting rows as in the query; `cases` are the
fetched pending cases; `db` the case table. -/
def allocate_round_robin (cases : List Case) (all_dcas : List DCA)
    (db : List Case) (user_id : String) (now : ℚ) : AllocResult :=
  let dcas := all_dcas.filter (fun d => d.is_active && d.is_accepting_cases)
  match dcas with
  | [] =>
    { allocated := []
      failed := cases.map (fun c =>
        { case_id := c.id, reason := "No available DCAs" })
      db := db }
  | d0 :: _ => round_robin_loop dcas d0 user_id now cases db 0

/-! ### SLA breach detection (`app/services/workflow_service.py` and
`app/task/sla_tasks.py`) -/

/-- One entry of the list returned by `WorkflowService.check_sla_breaches`. -/
structure BreachInfo where
  case_id : String
  breach_type : String
  deadline : ℚ
  days_overdue : ℤ
deriving DecidableEq, Repr

/-- SQL `deadline < now` on a nullable column: a NULL deadline satisfies no
comparison. -/
def deadlinePassed (deadline : Option ℚ) (now : ℚ) : Bool :=
  match deadline with
  | none => false
  | some d => d < now

/-- Embedding of `WorkflowService.check_sla_breaches`: contact breaches
(status in {new, allocated}, contact deadline passed, no first contact)
followed by resolution breaches (status in {new, allocated, in_progress},
resolution deadline passed, not resolved).  `(now - deadline).days` is the
floor of the difference. -/
def check_sla_breaches (db : List Case) (now : ℚ) : List BreachInfo :=
  let contact_breaches := db.filter (fun c =>
    (c.status == CaseStatus.new || c.status == CaseStatus.allocated)
      && deadlinePassed c.sla_contact_deadline now
      && c.first_contact_date == none)
  let resolution_breaches := db.filter (fun c =>
    (c.status == CaseStatus.new || c.status == CaseStatus.allocated
        || c.status == CaseStatus.in_progress)
      && deadlinePassed c.sla_resolution_deadline now
      && c.resolved_date == none)
  contact_breaches.map (fun c =>
    { case_id := c.id, breach_type := "contact_sla",
      deadline := c.sla_contact_deadline.getD 0,
      days_overdue := Int.floor (now - c.sla_contact_deadline.getD 0) })
    ++ resolution_breaches.map (fun c =>
      { case_id := c.id, breach_type := "resolution_sla",
        deadline := c.sla_resolution_deadline.getD 0,
        days_overdue := Int.floor (now - c.sla_resolution_deadline.getD 0) })

/-- A persisted `SLABreach` row with the columns `app/models/sla.py` actually
declares: a NOT NULL `rule_id`, `expected_deadline`, `actual_time`,
`delay_hours` and resolution metadata (`resolved_at`, `resolved_by`).  The
monitoring task instead expects columns named `breach_type`, `deadline`,
`detected_at`, `days_overdue` and `is_resolved`; none of them exist on this
model. -/
structure SLABreachRow where
  id : String
  case_id : String
  rule_id : String
  breached_at : ℚ := 0
  expected_deadline : ℚ := 0
  actual_time : ℚ := 0
  delay_hours : ℚ := 0
  resolved_at : Option ℚ := none
  resolved_by : Option String := none
deriving DecidableEq, Repr

/-- Summary dictionary returned by `SLAMonitoringTasks.check_sla_breaches`.
On the exception path the code returns `{"status": "error", "message": ...}`;
the count fields are then absent, modelled as 0. -/
structure ScanResult where
  status : String
  breaches_found : ℕ := 0
  new_breaches : ℕ := 0
  notifications_sent : ℕ := 0
  message : String := ""
deriving DecidableEq, Repr

/-- Embedding of `SLAMonitoringTasks.check_sla_breaches` (the hourly job) run
against the repository's own `SLABreach` model.  As the repository stands the
job cannot load at all: `app/models/sla.py` uses `relationship` and
`ForeignKey` without importing them, so `import app.models.sla` — required by
`sla_tasks.py` — raises `NameError`.  Granting those imports, the first thing
the per-breach loop does is the duplicate-check query on
`SLABreach.breach_type`, an attribute the model does not define, so the first
iteration raises `AttributeError` inside the job's `try`; the `except` rolls
the session back and returns an error summary.  Hence a run that detects no
breach returns the early success summary, and a run that detects any breach
returns an error summary with the breach table untouched: no row is ever
inserted and no notification is sent. -/
def check_sla_breaches_task (cases : List Case)
    (records : List SLABreachRow) (now : ℚ) :
    ScanResult × List SLABreachRow :=
  let breaches := check_sla_breaches cases now
  if breaches.isEmpty then
    ({ status := "success", breaches_found := 0 }, records)
  else
    ({ status := "error",
       message := "type object 'SLABreach' has no attribute 'breach_type'" },
     records)

/-! ### Concrete fixtures used by the witness and counterexample theorems -/

/-- Fixture DCA with a zero case budget (always at capacity). -/
def dcaA : DCA := { id := "A", code := "DCA-A", max_concurrent_cases := 0 }

/-- Fixture DCA with spare capacity. -/
def dcaB : DCA := { id := "B", code := "DCA-B", max_concurrent_cases := 5 }

/-- Fixture case in the terminal `closed` status. -/
def caseClosed : Case := { id := "c1", status := CaseStatus.closed }

/-- Fixture pending case awaiting allocation. -/
def caseNew : Case := { id := "x", status := CaseStatus.new }

/-- Fixture allocated case whose contact deadline (day 0) is in the past. -/
def caseBreach1 : Case :=
  { id := "c1", status := CaseStatus.allocated, sla_contact_deadline := some 0 }

/-- Second fixture allocated case with the same missed contact deadline. -/
def caseBreach2 : Case :=
  { id := "c2", status := CaseStatus.allocated, sla_contact_deadline := some 0 }

/-! ### Helper lemmas -/

/-- Rounding a rational that is already exact at the requested precision is
the identity. -/
theorem pyRound_eq_self_of_fract (q : ℚ) (n : ℕ)
    (h : Int.fract (q * (10 : ℚ) ^ n) = 0) : pyRound q n = q := by
  have h0 : ((⌊q * (10 : ℚ) ^ n⌋ : ℤ) : ℚ) = q * (10 : ℚ) ^ n := by
    have hf : Int.fract (q * (10 : ℚ) ^ n)
        = q * (10 : ℚ) ^ n - (⌊q * (10 : ℚ) ^ n⌋ : ℚ) := rfl
    rw [hf] at h; linarith
  have hpow : ((10 : ℚ) ^ n) ≠ 0 := by positivity
  simp only [pyRound, roundHalfEven]
  rw [if_pos (by rw [h0]; norm_num)]
  rw [h0]
  field_simp

/-- Banker's rounding stays inside any pair of integer bounds that contain
the argument. -/
theorem roundHalfEven_bounds {q : ℚ} {lo hi : ℤ} (hlo : (lo : ℚ) ≤ q)
    (hhi : q ≤ (hi : ℚ)) : lo ≤ roundHalfEven q ∧ roundHalfEven q ≤ hi := by
  have hfl : lo ≤ ⌊q⌋ := Int.le_floor.mpr hlo
  have hfu : ⌊q⌋ ≤ hi := by
    have := Int.floor_mono hhi
    simpa using this
  have hup : (⌊q⌋ : ℚ) < q → ⌊q⌋ + 1 ≤ hi := by
    intro hlt
    by_contra hcon
    push_neg at hcon
    have hq : ⌊q⌋ = hi := le_antisymm hfu (by omega)
    rw [hq] at hlt
    linarith
  have hle := Int.floor_le q
  simp only [roundHalfEven]
  split_ifs with h1 h2 h3
  · exact ⟨hfl, hfu⟩
  · refine ⟨by omega, hup ?_⟩
    linarith
  · exact ⟨hfl, hfu⟩
  · refine ⟨by omega, hup ?_⟩
    push_neg at h1
    linarith

/-- The strictly-best fold used by `find_best_dca` returns one of the scored
candidates. -/
theorem foldl_best_mem (l : List (DCA × ℚ)) (p : DCA × ℚ) :
    l.foldl (fun best q => if q.2 > best.2 then q else best) p ∈ p :: l := by
  induction l generalizing p with
  | nil => simp
  | cons q t ih =>
    simp only [List.foldl_cons]
    rcases List.mem_cons.mp (ih (if q.2 > p.2 then q else p)) with h | h
    · rw [h]
      split_ifs
      · exact List.mem_cons_of_mem _ (List.mem_cons_self _ _)
      · exact List.mem_cons_self _ _
    · exact List.mem_cons_of_mem _ (List.mem_cons_of_mem _ h)

/-- Whatever `find_best_dca` selects scored strictly above zero. -/
theorem find_best_dca_pos_score (cd : CaseData) (dcas : List DCA)
    (db : List Case) (now : ℚ) (d : DCA)
    (h : find_best_dca cd dcas db now = some d) :
    calculate_dca_score cd d db now > 0 := by
  unfold find_best_dca at h
  rcases hsc : dcas.filterMap (fun dca =>
      let score := calculate_dca_score cd dca db now
      if score > 0 then some (dca, score) else none) with _ | ⟨p, rest⟩
  · rw [hsc] at h; simp at h
  · rw [hsc] at h
    simp only [Option.some.injEq] at h
    have hmem : (rest.foldl (fun best q => if q.2 > best.2 then q else best) p)
        ∈ p :: rest := foldl_best_mem rest p
    rw [← hsc] at hmem
    rcases List.mem_filterMap.mp hmem with ⟨d', _, hd'⟩
    simp only at hd'
    split_ifs at hd' with hpos
    · rcases Option.some.injEq .. ▸ hd' with heq
      have h1 : d' = d := by
        have := congrArg Prod.fst (Option.some.inj hd')
        simpa [h] using this
      rw [← h1]
      exact hpos

/-! ### Claim theorems -/

/-- Claim C4: intake assigns priority high iff amount ≥ 50000 or delinquency
≥ 90 days, otherwise medium iff amount ≥ 10000 or delinquency ≥ 30 days,
otherwise low; and the SLA deadlines per tier are now+1d/now+7d (high),
now+3d/now+15d (medium), now+5d/now+30d (low). -/
theorem claim_C4 (cd : CaseData) (now : ℚ) :
    (calculate_initial_priority cd = CasePriority.high
      ↔ (cd.amount ≥ 50000 ∨ cd.days ≥ 90))
    ∧ (calculate_initial_priority cd = CasePriority.medium
      ↔ (¬(cd.amount ≥ 50000 ∨ cd.days ≥ 90)
        ∧ (cd.amount ≥ 10000 ∨ cd.days ≥ 30)))
    ∧ (calculate_initial_priority cd = CasePriority.low
      ↔ (¬(cd.amount ≥ 50000 ∨ cd.days ≥ 90)
        ∧ ¬(cd.amount ≥ 10000 ∨ cd.days ≥ 30)))
    ∧ calculate_sla_deadlines CasePriority.high now = (now + 1, now + 7)
    ∧ calculate_sla_deadlines CasePriority.medium now = (now + 3, now + 15)
    ∧ calculate_sla_deadlines CasePriority.low now = (now + 5, now + 30) := by
  refine ⟨?_, ?_, ?_, rfl, rfl, rfl⟩ <;>
    · unfold calculate_initial_priority
      split_ifs with h1 h2 <;> simp_all

/-- Claim C6: the rule-based recovery score equals 70 minus the delinquency
penalty (40 above 180 days, 25 above 90, 15 above 60, 5 above 30) minus the
amount penalty (30 above 50000, 20 above 25000, 10 above 10000), clamped to
[0, 100]; it lies in [0, 100] and depends only on (original_amount,
days_delinquent). -/
theorem claim_C6 (cd cd' : CaseData) (hA : cd.amount = cd'.amount)
    (hD : cd.days = cd'.days) :
    calculate_rule_based_score cd
        = max 0 (min 100 ((70 : ℚ)
          - (if cd.days > 180 then (40 : ℚ) else if cd.days > 90 then 25
              else if cd.days > 60 then 15 else if cd.days > 30 then 5 else 0)
          - (if cd.amount > 50000 then (30 : ℚ)
              else if cd.amount > 25000 then 20
              else if cd.amount > 10000 then 10 else 0)))
      ∧ 0 ≤ calculate_rule_based_score cd
      ∧ calculate_rule_based_score cd ≤ 100
      ∧ calculate_rule_based_score cd = calculate_rule_based_score cd' := by
  have heq : ∀ c : CaseData, calculate_rule_based_score c
      = max 0 (min 100 ((70 : ℚ)
        - (if c.days > 180 then (40 : ℚ) else if c.days > 90 then 25
            else if c.days > 60 then 15 else if c.days > 30 then 5 else 0)
        - (if c.amount > 50000 then (30 : ℚ) else if c.amount > 25000 then 20
            else if c.amount > 10000 then 10 else 0))) := by
    intro c
    simp only [calculate_rule_based_score]
    split_ifs <;> rw [pyRound_eq_self_of_fract] <;> norm_num [Int.fract]
  refine ⟨heq cd, le_max_left _ _, ?_, ?_⟩
  · rw [heq cd]
    exact max_le (by norm_num) (min_le_left _ _)
  · rw [heq cd, heq cd', hA, hD]

/-- Witness for claim C6 at a concrete pair of case dictionaries that agree
on amount and delinquency but differ in debt type. -/
theorem claim_C6_witness :
    calculate_rule_based_score
        { original_amount := some 20000, days_delinquent := some 40,
          debt_type := some "medical" }
      = calculate_rule_based_score
        { original_amount := some 20000, days_delinquent := some 40,
          debt_type := none } :=
  (claim_C6
    { original_amount := some 20000, days_delinquent := some 40,
      debt_type := some "medical" }
    { original_amount := some 20000, days_delinquent := some 40,
      debt_type := none } rfl rfl).2.2.2

/-- Claim C7: `RecoveryModel.predict` never raises (it is a total function of
the model state and the abstracted inference outcome); whenever no trained
model is loaded, or the trained-mode inference raises, it returns exactly the
rule-based fallback result, whose probability is the rule-based score divided
by 100. -/
theorem claim_C7 (is_trained : Bool) (trained_outcome : Option PredictResult)
    (cd : CaseData) (h : is_trained = false ∨ trained_outcome = none) :
    predict is_trained trained_outcome cd = predict_with_rule_based cd
      ∧ (predict is_trained trained_outcome cd).recovery_probability
        = calculate_rule_based_score cd / 100 := by
  have hfall : predict is_trained trained_outcome cd
      = predict_with_rule_based cd := by
    rcases h with h | h <;> rw [h]
    · rfl
    · cases is_trained <;> rfl
  exact ⟨hfall, by rw [hfall]; rfl⟩

/-- Witness for claim C7: an untrained model on an empty case dictionary
degrades to the rule-based path. -/
theorem claim_C7_witness :
    predict false none {} = predict_with_rule_based {}
      ∧ (predict false none {}).recovery_probability
        = calculate_rule_based_score {} / 100 :=
  claim_C7 false none {} (Or.inl rfl)

/-- Counterexample for claim C5: at amount 1, delinquency 0, recovery 0 and
an unknown debt type, the weighted sum is 25003/500000 = 0.050006, but the
returned `priority_score` is `round(0.050006, 3) = 0.05`, so the returned
field does not equal the claimed weighted-sum formula. -/
theorem claim_C5_counterexample :
    (calculate_priority_score
        { original_amount := some 1, days_delinquent := some 0,
          debt_type := none } 0).priority_score
      ≠ 0.3 * min ((1 : ℚ) / 50000) 1 + 0.25 * min ((0 : ℚ) / 90) 1
        + 0.35 * 0 + 0.1 * 0.5 := by
  have h1 : min ((1 : ℚ) / 50000) 1 = 1 / 50000 := min_eq_left (by norm_num)
  have h2 : min ((0 : ℚ) / 90) 1 = 0 := by
    rw [zero_div]; exact min_eq_left (by norm_num)
  have hv : priority_score_val
      { original_amount := some 1, days_delinquent := some 0,
        debt_type := none } 0 = 25003 / 500000 := by
    simp only [priority_score_val, CaseData.amount, CaseData.days,
      CaseData.debtType, Option.getD_some, Option.getD_none]
    rw [show strategic_factors "other" = 0.5 by simp [strategic_factors]]
    push_cast
    rw [h1, h2]
    norm_num
  have hr : (calculate_priority_score
      { original_amount := some 1, days_delinquent := some 0,
        debt_type := none } 0).priority_score
      = pyRound (25003 / 500000) 3 := by
    simp only [calculate_priority_score]
    rw [hv, if_neg (by norm_num), if_neg (by norm_num)]
  have hfl : ⌊(25003 : ℚ) / 500000 * 10 ^ 3⌋ = 50 := by
    rw [Int.floor_eq_iff]; norm_num
  have hp : pyRound ((25003 : ℚ) / 500000) 3 = 1 / 20 := by
    simp only [pyRound, roundHalfEven, hfl]
    rw [if_pos (by norm_num)]
    norm_num
  rw [hr, hp, h1, h2]
  norm_num

/-- Claim C5 as amended: the returned `priority_score` is the weighted sum
0.3·min(amount/50000,1) + 0.25·min(days/90,1) + 0.35·recovery +
0.1·strategic rounded half-even to 3 decimals (the unrounded sum drives the
tier); both the sum and the returned score lie in [0,1]; the tier is high iff
the sum is ≥ 0.7, medium iff it is in [0.4, 0.7), low iff it is < 0.4, with
suggested SLA days 1/7, 3/15, 5/30 respectively; the strategic constant maps
medical to 0.8, mortgage to 0.9, auto_loan to 0.7, credit_card to 0.6 and
everything else to 0.5. -/
theorem claim_C5_amended (cd : CaseData) (p : ℚ) (hA : 0 ≤ cd.amount)
    (hD : 0 ≤ cd.days) (hp0 : 0 ≤ p) (hp1 : p ≤ 1) :
    priority_score_val cd p
        = 0.3 * min (cd.amount / 50000) 1 + 0.25 * min ((cd.days : ℚ) / 90) 1
          + 0.35 * p + 0.1 * strategic_factors cd.debtType
      ∧ strategic_factors "medical" = 0.8
      ∧ strategic_factors "mortgage" = 0.9
      ∧ strategic_factors "auto_loan" = 0.7
      ∧ strategic_factors "credit_card" = 0.6
      ∧ (∀ dt : String, dt ≠ "medical" → dt ≠ "credit_card" →
          dt ≠ "mortgage" → dt ≠ "auto_loan" → strategic_factors dt = 0.5)
      ∧ 0 ≤ priority_score_val cd p ∧ priority_score_val cd p ≤ 1
      ∧ (calculate_priority_score cd p).priority_score
          = pyRound (priority_score_val cd p) 3
      ∧ 0 ≤ (calculate_priority_score cd p).priority_score
      ∧ (calculate_priority_score cd p).priority_score ≤ 1
      ∧ ((calculate_priority_score cd p).priority_level = "high"
          ↔ priority_score_val cd p ≥ 0.7)
      ∧ ((calculate_priority_score cd p).priority_level = "medium"
          ↔ (0.4 ≤ priority_score_val cd p ∧ priority_score_val cd p < 0.7))
      ∧ ((calculate_priority_score cd p).priority_level = "low"
          ↔ priority_score_val cd p < 0.4)
      ∧ ((calculate_priority_score cd p).priority_level = "high" →
          (calculate_priority_score cd p).suggested_sla_contact = 1
            ∧ (calculate_priority_score cd p).suggested_sla_resolution = 7)
      ∧ ((calculate_priority_score cd p).priority_level = "medium" →
          (calculate_priority_score cd p).suggested_sla_contact = 3
            ∧ (calculate_priority_score cd p).suggested_sla_resolution = 15)
      ∧ ((calculate_priority_score cd p).priority_level = "low" →
          (calculate_priority_score cd p).suggested_sla_contact = 5
            ∧ (calculate_priority_score cd p).suggested_sla_resolution = 30)
    := by
  have hv0 : (0 : ℚ) ≤ min (cd.amount / 50000) 1 :=
    le_min (div_nonneg hA (by norm_num)) (by norm_num)
  have hv1 : min (cd.amount / 50000) 1 ≤ 1 := min_le_right _ _
  have hD' : (0 : ℚ) ≤ (cd.days : ℚ) := by exact_mod_cast hD
  have hu0 : (0 : ℚ) ≤ min ((cd.days : ℚ) / 90) 1 :=
    le_min (div_nonneg hD' (by norm_num)) (by norm_num)
  have hu1 : min ((cd.days : ℚ) / 90) 1 ≤ 1 := min_le_right _ _
  have hs : 0.5 ≤ strategic_factors cd.debtType
      ∧ strategic_factors cd.debtType ≤ 0.9 := by
    unfold strategic_factors
    split_ifs <;> norm_num
  have hraw0 : 0 ≤ priority_score_val cd p := by
    unfold priority_score_val
    have t1 : (0 : ℚ) ≤ 0.3 * min (cd.amount / 50000) 1 :=
      mul_nonneg (by norm_num) hv0
    have t2 : (0 : ℚ) ≤ 0.25 * min ((cd.days : ℚ) / 90) 1 :=
      mul_nonneg (by norm_num) hu0
    have t3 : (0 : ℚ) ≤ 0.35 * p := mul_nonneg (by norm_num) hp0
    have t4 : (0 : ℚ) ≤ 0.1 * strategic_factors cd.debtType :=
      mul_nonneg (by norm_num) (le_trans (by norm_num) hs.1)
    linarith
  have hraw1 : priority_score_val cd p ≤ 1 := by
    unfold priority_score_val
    have t1 : 0.3 * min (cd.amount / 50000) 1 ≤ 0.3 * 1 :=
      mul_le_mul_of_nonneg_left hv1 (by norm_num)
    have t2 : 0.25 * min ((cd.days : ℚ) / 90) 1 ≤ 0.25 * 1 :=
      mul_le_mul_of_nonneg_left hu1 (by norm_num)
    have t3 : 0.35 * p ≤ 0.35 * 1 := mul_le_mul_of_nonneg_left hp1 (by norm_num)
    have t4 : 0.1 * strategic_factors cd.debtType ≤ 0.1 * 0.9 :=
      mul_le_mul_of_nonneg_left hs.2 (by norm_num)
    linarith
  have hps : (calculate_priority_score cd p).priority_score
      = pyRound (priority_score_val cd p) 3 := by
    simp only [calculate_priority_score]
    split_ifs <;> rfl
  have hbounds := @roundHalfEven_bounds
    (priority_score_val cd p * (10 : ℚ) ^ 3) 0 1000
    (by push_cast; nlinarith) (by push_cast; nlinarith)
  have hps0 : 0 ≤ (calculate_priority_score cd p).priority_score := by
    rw [hps]
    unfold pyRound
    apply div_nonneg _ (by norm_num)
    exact_mod_cast hbounds.1
  have hps1 : (calculate_priority_score cd p).priority_score ≤ 1 := by
    rw [hps]
    unfold pyRound
    rw [div_le_one (by norm_num)]
    exact_mod_cast hbounds.2
  have hlevel : ((calculate_priority_score cd p).priority_level = "high"
        ↔ priority_score_val cd p ≥ 0.7)
      ∧ ((calculate_priority_score cd p).priority_level = "medium"
        ↔ (0.4 ≤ priority_score_val cd p ∧ priority_score_val cd p < 0.7))
      ∧ ((calculate_priority_score cd p).priority_level = "low"
        ↔ priority_score_val cd p < 0.4) := by
    simp only [calculate_priority_score]
    split_ifs with h7 h4
    · refine ⟨by simpa using h7, ?_, ?_⟩
      · simp only [show ("high" = "medium") = False by simp, false_iff]
        rintro ⟨-, hlt⟩
        linarith
      · simp only [show ("high" = "low") = False by simp, false_iff]
        intro hlt
        linarith
    · push_neg at h7
      refine ⟨?_, ?_, ?_⟩
      · simp only [show ("medium" = "high") = False by simp, false_iff]
        intro hge
        linarith
      · simpa using ⟨h4, h7⟩
      · simp only [show ("medium" = "low") = False by simp, false_iff]
        intro hlt
        linarith
    · push_neg at h7 h4
      refine ⟨?_, ?_, ?_⟩
      · simp only [show ("low" = "high") = False by simp, false_iff]
        intro hge
        linarith
      · simp only [show ("low" = "medium") = False by simp, false_iff]
        rintro ⟨hge, -⟩
        linarith
      · simpa using h4
  have hsla : ((calculate_priority_score cd p).priority_level = "high" →
        (calculate_priority_score cd p).suggested_sla_contact = 1
          ∧ (calculate_priority_score cd p).suggested_sla_resolution = 7)
      ∧ ((calculate_priority_score cd p).priority_level = "medium" →
        (calculate_priority_score cd p).suggested_sla_contact = 3
          ∧ (calculate_priority_score cd p).suggested_sla_resolution = 15)
      ∧ ((calculate_priority_score cd p).priority_level = "low" →
        (calculate_priority_score cd p).suggested_sla_contact = 5
          ∧ (calculate_priority_score cd p).suggested_sla_resolution = 30) := by
    simp only [calculate_priority_score]
    split_ifs <;> simp
  refine ⟨rfl, by simp [strategic_factors], by simp [strategic_factors],
    by simp [strategic_factors], by simp [strategic_factors], ?_,
    hraw0, hraw1, hps, hps0, hps1,
    hlevel.1, hlevel.2.1, hlevel.2.2, hsla.1, hsla.2.1, hsla.2.2⟩
  intro dt h1 h2 h3 h4
  simp only [strategic_factors, if_neg h1, if_neg h2, if_neg h3, if_neg h4]
  split_ifs <;> norm_num

/-- Witness for the amended claim C5 at a concrete high-tier case. -/
theorem claim_C5_amended_witness :
    0 ≤ priority_score_val
        { original_amount := some 100000, days_delinquent := some 180,
          debt_type := some "mortgage" } (1 / 2)
      ∧ priority_score_val
        { original_amount := some 100000, days_delinquent := some 180,
          debt_type := some "mortgage" } (1 / 2) ≤ 1 := by
  have H := claim_C5_amended
    { original_amount := some 100000, days_delinquent := some 180,
      debt_type := some "mortgage" } (1 / 2)
    (by norm_num [CaseData.amount, Option.getD_some])
    (by norm_num [CaseData.days, Option.getD_some])
    (by norm_num) (by norm_num)
  exact ⟨H.2.2.2.2.2.2.1, H.2.2.2.2.2.2.2.1⟩

/-- Claim C1: a DCA whose count of cases in status {allocated, in_progress}
is at or above its `max_concurrent_cases` gets capacity sub-score 0 and is
never returned by `find_best_dca`, whatever its performance, specialization
or workload sub-scores would contribute. -/
theorem claim_C1 (cd : CaseData) (dcas : List DCA) (db : List Case) (now : ℚ)
    (d : DCA) (h : (countActiveCases db d.id : ℤ) ≥ d.max_concurrent_cases) :
    calculate_capacity_score d db = 0
      ∧ find_best_dca cd dcas db now ≠ some d := by
  have hcap : calculate_capacity_score d db = 0 := by
    simp only [calculate_capacity_score]
    rw [if_pos h]
  refine ⟨hcap, fun heq => ?_⟩
  have hpos := find_best_dca_pos_score cd dcas db now d heq
  rw [show calculate_dca_score cd d db now = 0 by
    simp only [calculate_dca_score, hcap]; norm_num] at hpos
  exact absurd hpos (by norm_num)

/-- Witness for claim C1: a DCA with a zero case budget and an empty case
table is at capacity, scores 0 and is never selected. -/
theorem claim_C1_witness :
    calculate_capacity_score dcaA [] = 0
      ∧ find_best_dca {} [dcaA] [] 0 ≠ some dcaA :=
  claim_C1 {} [dcaA] [] 0 dcaA (by simp [countActiveCases, dcaA])

/-- Claim C2: the transition checker accepts exactly the specified table (so
any transition outside it, in particular any transition out of `closed`, is
rejected), and a rejected transition makes `update_case_status` return false
with the database — hence the case's status and every other field —
unchanged. -/
theorem claim_C2 :
    (∀ a b : CaseStatus, is_valid_status_transition a b = true ↔
      (a, b) ∈ ([
        (CaseStatus.new, CaseStatus.allocated),
        (CaseStatus.new, CaseStatus.in_progress),
        (CaseStatus.new, CaseStatus.closed),
        (CaseStatus.allocated, CaseStatus.in_progress),
        (CaseStatus.allocated, CaseStatus.returned),
        (CaseStatus.allocated, CaseStatus.closed),
        (CaseStatus.in_progress, CaseStatus.resolved),
        (CaseStatus.in_progress, CaseStatus.escalated),
        (CaseStatus.in_progress, CaseStatus.closed),
        (CaseStatus.escalated, CaseStatus.in_progress),
        (CaseStatus.escalated, CaseStatus.resolved),
        (CaseStatus.escalated, CaseStatus.closed),
        (CaseStatus.resolved, CaseStatus.closed),
        (CaseStatus.resolved, CaseStatus.in_progress),
        (CaseStatus.returned, CaseStatus.new),
        (CaseStatus.returned, CaseStatus.allocated)] :
          List (CaseStatus × CaseStatus)))
    ∧ (∀ (db : List Case) (cid : String) (ns : CaseStatus) (now : ℚ)
        (c : Case), db.find? (fun x => x.id == cid) = some c →
        is_valid_status_transition c.status ns = false →
        update_case_status cid ns db now = (false, db))
    ∧ (∀ ns : CaseStatus,
        is_valid_status_transition CaseStatus.closed ns = false) := by
  refine ⟨?_, ?_, ?_⟩
  · intro a b
    cases a <;> cases b <;> decide
  · intro db cid ns now c hfind hvalid
    simp only [update_case_status, hfind, hvalid]
    rfl
  · intro ns
    cases ns <;> decide

/-- Witness for claim C2: a closed case rejects a transition request to
`allocated` and the database row is untouched. -/
theorem claim_C2_witness :
    update_case_status "c1" CaseStatus.allocated [caseClosed] 0
      = (false, [caseClosed]) :=
  claim_C2.2.1 [caseClosed] "c1" CaseStatus.allocated 0 caseClosed
    (by simp [List.find?, caseClosed]) (by decide)

/-- Claim C3 (code bug): the idempotent breach recording the claim describes
is unreachable.  Run against the repository's `SLABreach` model, any scan
that detects a breach fails at the duplicate-check query and records
nothing, so no scan ever records a breach for a later scan to deduplicate
against.  At the failing input — one allocated case past its contact
deadline — the detector reports exactly one breach, yet the job returns an
error summary, zero new rows, and an unchanged empty breach table. -/
theorem claim_C3 :
    (check_sla_breaches [caseBreach1] 5).length = 1
      ∧ (check_sla_breaches_task [caseBreach1] [] 5).1.status = "error"
      ∧ (check_sla_breaches_task [caseBreach1] [] 5).1.new_breaches = 0
      ∧ (check_sla_breaches_task [caseBreach1] [] 5).2 = [] :=
  ⟨rfl, rfl, rfl, rfl⟩

/-- Claim C8 (code bug): with two cases past their contact deadline, the
failure raised while processing the first breach — the duplicate-check query
against the mismatched `SLABreach` model, a persistence-layer failure with
no per-case handler — aborts the processing of the second case as well: the
job returns an error summary with nothing recorded, not a partial-success
summary over the remaining case. -/
theorem claim_C8 :
    (check_sla_breaches [caseBreach1, caseBreach2] 5).length = 2
      ∧ (check_sla_breaches_task [caseBreach1, caseBreach2] [] 5).1.status
          = "error"
      ∧ (check_sla_breaches_task [caseBreach1, caseBreach2] [] 5).2 = [] :=
  ⟨rfl, rfl, rfl⟩

/-- Claim C10 (code bug): the is_resolved-blind duplicate check the claim
describes does not exist in the program — `SLABreach` has neither a
`breach_type` nor an `is_resolved` column, so the query raises instead of
matching.  What actually holds is emptier than the claim: no scan ever
inserts any breach row at all; the breach table is returned unchanged, with
zero new rows, for every input. -/
theorem claim_C10 (cases : List Case) (records : List SLABreachRow)
    (now : ℚ) :
    (check_sla_breaches_task cases records now).2 = records
      ∧ (check_sla_breaches_task cases records now).1.new_breaches = 0 := by
  simp only [check_sla_breaches_task]
  split <;> exact ⟨rfl, rfl⟩

/-- Counterexample for claim C9: one pending case, the first DCA in rotation
at capacity (budget 0), the second with free capacity — the case is reported
as a failure naming the first DCA instead of being assigned to the second. -/
theorem claim_C9_counterexample :
    (allocate_round_robin [caseNew] [dcaA, dcaB] [caseNew] "u" 0).failed
        = [{ case_id := "x", reason := "DCA DCA-A at capacity" }]
      ∧ (allocate_round_robin [caseNew] [dcaA, dcaB] [caseNew]
          "u" 0).allocated = []
      ∧ (countActiveCases [caseNew] dcaB.id : ℤ)
          < dcaB.max_concurrent_cases :=
  ⟨rfl, rfl, by decide⟩

/-- An indexed default read from a list stays in the list when the default is
itself a member. -/
theorem getD_mem_of_mem {l : List DCA} {d0 : DCA} (h : d0 ∈ l) (i : ℕ) :
    l.getD i d0 ∈ l := by
  rw [List.getD_eq_get?]
  rcases hg : l.get? i with _ | a
  · simpa using h
  · simpa using List.get?_mem hg

/-- Every pending case yields exactly one outcome in the round-robin loop. -/
theorem round_robin_loop_length (dcas : List DCA) (d0 : DCA) (u : String)
    (now : ℚ) :
    ∀ (pending db : List Case) (idx : ℕ),
      (round_robin_loop dcas d0 u now pending db idx).allocated.length
        + (round_robin_loop dcas d0 u now pending db idx).failed.length
      = pending.length := by
  intro pending
  induction pending with
  | nil => intro db idx; rfl
  | cons c rest ih =>
    intro db idx
    simp only [round_robin_loop]
    split_ifs with hcap
    · have := ih (assignCase db c.id (dcas.getD idx d0) u now)
        ((idx + 1) % dcas.length)
      simp only [List.length_cons]
      omega
    · have := ih db ((idx + 1) % dcas.length)
      simp only [List.length_cons]
      omega

/-- Every failure entry of the round-robin loop names a DCA of the
rotation. -/
theorem round_robin_loop_failed_reason (dcas : List DCA) (d0 : DCA)
    (hd0 : d0 ∈ dcas) (u : String) (now : ℚ) :
    ∀ (pending db : List Case) (idx : ℕ),
      ∀ f ∈ (round_robin_loop dcas d0 u now pending db idx).failed,
        ∃ d ∈ dcas, f.reason = "DCA " ++ d.code ++ " at capacity" := by
  intro pending
  induction pending with
  | nil =>
    intro db idx f hf
    exact absurd hf (List.not_mem_nil f)
  | cons c rest ih =>
    intro db idx f hf
    simp only [round_robin_loop] at hf
    split_ifs at hf with hcap
    · exact ih _ _ f hf
    · rcases List.mem_cons.mp hf with hf0 | hfr
      · exact ⟨dcas.getD idx d0, getD_mem_of_mem hd0 idx,
          by rw [hf0]⟩
      · exact ih _ _ f hfr

/-- Claim C9 as amended: every case yields exactly one outcome (allocation or
typed failure); every failure reason is either "No available DCAs" or names
an active, accepting DCA of the rotation; the bulk entry point runs the
rotation loop from index 0 over the fetched DCAs; and at every step — for
every remaining case list, database state and rotation index — the next case
is checked only against the single DCA at the current rotation index: it is
allocated to that DCA iff the DCA is below its capacity at that moment, and
otherwise reported as a typed failure naming that DCA even when other DCAs
have capacity, the rotation index advancing by one modulo the DCA count in
both cases. -/
theorem claim_C9_amended (cases : List Case) (all_dcas : List DCA)
    (db : List Case) (user_id : String) (now : ℚ) :
    ((allocate_round_robin cases all_dcas db user_id now).allocated.length
        + (allocate_round_robin cases all_dcas db user_id now).failed.length
      = cases.length)
    ∧ (∀ f ∈ (allocate_round_robin cases all_dcas db user_id now).failed,
        f.reason = "No available DCAs"
          ∨ ∃ d ∈ all_dcas.filter
              (fun d => d.is_active && d.is_accepting_cases),
              f.reason = "DCA " ++ d.code ++ " at capacity")
    ∧ (∀ (d0 : DCA) (ds : List DCA),
        all_dcas.filter (fun d => d.is_active && d.is_accepting_cases)
          = d0 :: ds →
        allocate_round_robin cases all_dcas db user_id now
          = round_robin_loop (d0 :: ds) d0 user_id now cases db 0)
    ∧ (∀ (d0 : DCA) (ds : List DCA) (c : Case) (rest db2 : List Case)
        (idx : ℕ),
        ((countActiveCases db2 ((d0 :: ds).getD idx d0).id : ℤ)
            < ((d0 :: ds).getD idx d0).max_concurrent_cases →
          round_robin_loop (d0 :: ds) d0 user_id now (c :: rest) db2 idx
            = { allocated := c.id :: (round_robin_loop (d0 :: ds) d0 user_id
                  now rest
                  (assignCase db2 c.id ((d0 :: ds).getD idx d0) user_id now)
                  ((idx + 1) % (d0 :: ds).length)).allocated,
                failed := (round_robin_loop (d0 :: ds) d0 user_id now rest
                  (assignCase db2 c.id ((d0 :: ds).getD idx d0) user_id now)
                  ((idx + 1) % (d0 :: ds).length)).failed,
                db := (round_robin_loop (d0 :: ds) d0 user_id now rest
                  (assignCase db2 c.id ((d0 :: ds).getD idx d0) user_id now)
                  ((idx + 1) % (d0 :: ds).length)).db })
        ∧ ((countActiveCases db2 ((d0 :: ds).getD idx d0).id : ℤ)
            ≥ ((d0 :: ds).getD idx d0).max_concurrent_cases →
          round_robin_loop (d0 :: ds) d0 user_id now (c :: rest) db2 idx
            = { allocated := (round_robin_loop (d0 :: ds) d0 user_id now rest
                  db2 ((idx + 1) % (d0 :: ds).length)).allocated,
                failed := { case_id := c.id, reason := "DCA "
                    ++ ((d0 :: ds).getD idx d0).code ++ " at capacity" }
                  :: (round_robin_loop (d0 :: ds) d0 user_id now rest db2
                    ((idx + 1) % (d0 :: ds).length)).failed,
                db := (round_robin_loop (d0 :: ds) d0 user_id now rest db2
                  ((idx + 1) % (d0 :: ds).length)).db })) := by
  refine ⟨?_, ?_, ?_, ?_⟩
  · simp only [allocate_round_robin]
    rcases hf : all_dcas.filter
        (fun d => d.is_active && d.is_accepting_cases)
      with _ | ⟨d0', ds'⟩ <;> rw [hf] <;> dsimp only
    · simp
    · exact round_robin_loop_length _ _ _ _ cases db 0
  · simp only [allocate_round_robin]
    rcases hf : all_dcas.filter
        (fun d => d.is_active && d.is_accepting_cases)
      with _ | ⟨d0', ds'⟩ <;> rw [hf] <;> dsimp only
    · intro f hf2
      rcases List.mem_map.mp hf2 with ⟨c, -, hc⟩
      exact Or.inl (by rw [← hc])
    · intro f hf2
      rcases round_robin_loop_failed_reason (d0' :: ds') d0'
        (List.mem_cons_self _ _) user_id now cases db 0 f hf2 with
        ⟨d, hd, hr⟩
      exact Or.inr ⟨d, hd, hr⟩
  · intro d0 ds hf
    simp only [allocate_round_robin]
    rw [hf]
  · intro d0 ds c rest db2 idx
    constructor
    · intro hlt
      simp only [round_robin_loop]
      rw [if_pos hlt]
    · intro hge
      simp only [round_robin_loop]
      rw [if_neg (not_lt.mpr hge)]

/-- Witness for the amended claim C9 at the fixture instance: at rotation
index 0 the zero-budget DCA is at capacity, so the pending case fails naming
it — although the next DCA in the rotation has capacity — and the rotation
step equation holds. -/
theorem claim_C9_amended_witness :
    round_robin_loop [dcaA, dcaB] dcaA "u" 0 [caseNew] [caseNew] 0
      = { allocated := [],
          failed := [{ case_id := "x", reason := "DCA DCA-A at capacity" }],
          db := [caseNew] } :=
  ((claim_C9_amended [caseNew] [dcaA, dcaB] [caseNew] "u" 0).2.2.2 dcaA
    [dcaB] caseNew [] [caseNew] 0).2 (by decide)
